import Mathlib

/-!
Verification of the pico-robust-co2-logger firmware (src/main.py) against its
natural-language specification.  The MicroPython class ProductionCO2Monitor is
shallowly embedded: its mutable instance fields become the Monitor structure,
each method becomes a state-transition function, and I/O outcomes that the
hardware or network decide (sensor values, exceptions, broker results, link
join delay) are passed in as explicit oracle arguments.  Floating-point sensor
arithmetic is modelled over the rationals; the Python round builtin is modelled
as round-half-to-even at the requested decimal position.
-/

set_option autoImplicit false

/-! ## Configuration constants (src/main.py lines 55-71) -/

def SENSOR_READ_INTERVAL : ℤ := 30
def PUBLISH_INTERVAL : ℤ := 30
def GC_INTERVAL : ℤ := 60
def CONNECTION_RETRY_INTERVAL : ℤ := 300
def STATUS_REPORT_INTERVAL : ℤ := 3600

def MEMORY_WARNING_THRESHOLD : ℤ := 20000
def MEMORY_CRITICAL_THRESHOLD : ℤ := 12000
def MEMORY_EMERGENCY_THRESHOLD : ℤ := 8000

def MAX_CONSECUTIVE_ERRORS : ℕ := 20
def MAX_MQTT_FAILURES : ℕ := 10
def MAX_SENSOR_FAILURES : ℕ := 15

/-! ## State of the monitor (instance fields of ProductionCO2Monitor.__init__,
src/main.py lines 98-142).  Handles are modelled as Option Unit: some means
the field holds a live driver object, none means it is Python None.  The two
availability flags model the LIBRARIES_STATUS entries consulted by the
methods; they are set once at import time and never mutated.  sensor_reinits
is instrumentation: it counts invocations of init_sensor_robust so that the
reinitialization signal of the spec can be observed in theorems. -/

structure Monitor where
  wlan : Option Unit
  mqtt_client : Option Unit
  scd40 : Option Unit
  display : Bool
  mqtt_connected : Bool
  co2_ppm : Option ℚ
  temperature_c : Option ℚ
  humidity_percent : Option ℚ
  thi_value : Option ℚ
  sensor_error_count : ℕ
  mqtt_error_count : ℕ
  wifi_error_count : ℕ
  system_error_count : ℕ
  successful_readings : ℕ
  successful_transmissions : ℕ
  sensor_reinits : ℕ
  last_sensor_read : ℤ
  last_publish : ℤ
  last_gc : ℤ
  last_connection_check : ℤ
  last_status_report : ℤ
  umqtt_available : Bool
  scd4x_available : Bool
deriving DecidableEq

/-- Initial state built by __init__ (src/main.py lines 98-142): every handle
is None, every counter zero, every timer zero, no data yet. -/
def initMonitor (umqtt scd4x : Bool) : Monitor :=
  { wlan := none, mqtt_client := none, scd40 := none, display := false
    mqtt_connected := false
    co2_ppm := none, temperature_c := none, humidity_percent := none
    thi_value := none
    sensor_error_count := 0, mqtt_error_count := 0, wifi_error_count := 0
    system_error_count := 0
    successful_readings := 0, successful_transmissions := 0, sensor_reinits := 0
    last_sensor_read := 0, last_publish := 0, last_gc := 0
    last_connection_check := 0, last_status_report := 0
    umqtt_available := umqtt, scd4x_available := scd4x }

/-! ## Telemetry arithmetic -/

/-- Python round-half-to-even of a rational to an integer (the builtin round
with one argument, applied here over exact rationals). -/
def roundHalfEven (x : ℚ) : ℤ :=
  let n := Rat.floor x
  let frac := x - n
  if frac < 1/2 then n
  else if 1/2 < frac then n + 1
  else if n % 2 = 0 then n else n + 1

/-- Python round(x, 1): round to one decimal place. -/
def round1 (x : ℚ) : ℚ := (roundHalfEven (10 * x) : ℚ) / 10

/-- calculate_thi_efficient (src/main.py lines 220-227): returns None when
either input is None, else the THI formula rounded to one decimal. -/
def calculate_thi_efficient (temp humid : Option ℚ) : Option ℚ :=
  match temp, humid with
  | some t, some h =>
      some (round1 (81/100 * t + 1/100 * h * (99/100 * t - 143/10) + 463/10))
  | _, _ => none

/-- The Python expression a or b on two optional numbers: the left value is
kept only when it is present and truthy (nonzero); otherwise the right value
is used.  Models line 363 of src/main.py. -/
def pyOr (a b : Option ℚ) : Option ℚ :=
  match a with
  | some x => if x = 0 then b else some x
  | none => b

/-- The validation test of src/main.py line 373: a stored co2 value is
rejected when it is present and outside [0, 50000]. -/
def rejectCo2 : Option ℚ → Bool
  | none => false
  | some c => decide (c < 0) || decide (50000 < c)

/-! ## Sensor operations -/

/-- Oracle describing what the sensor driver does during one
read_sensor_robust call: whether data_ready is set, the values of the CO2,
temperature, humidity and relative_humidity attributes (none models an absent
attribute, so getattr returns None), whether the outer try raises before any
field is assigned, and whether the inner getattr try raises (which nulls both
temperature and humidity). -/
structure SensorEnv where
  data_ready : Bool
  co2 : Option ℚ
  temperature : Option ℚ
  humidity : Option ℚ
  relative_humidity : Option ℚ
  raises : Bool
  attr_raises : Bool
deriving DecidableEq

/-- init_sensor_robust (src/main.py lines 311-330).  The i2c/driver work is
abstracted into the ok oracle; the instrumentation counter sensor_reinits
records the invocation itself.  Returns the new state and the boolean result. -/
def init_sensor_robust (ok : Bool) (s : Monitor) : Monitor × Bool :=
  let s1 := { s with sensor_reinits := s.sensor_reinits + 1 }
  if s1.scd4x_available = false then (s1, false)
  else if ok then ({ s1 with scd40 := some () }, true)
  else (s1, false)

/-- read_sensor_robust (src/main.py lines 349-390).  Returns the new state
and the boolean result.  Paths, in source order: missing driver handle; the
exception handler (counter increment, threshold reinitialization); data not
ready; otherwise the four data fields are assigned, then the co2 range check
runs, and only a value that passes it counts as a success. -/
def read_sensor_robust (env : SensorEnv) (reinit_ok : Bool) (s : Monitor) :
    Monitor × Bool :=
  if s.scd40 = none then (s, false)
  else if env.raises then
    let c := s.sensor_error_count + 1
    if MAX_SENSOR_FAILURES ≤ c then
      let s2 := (init_sensor_robust reinit_ok { s with sensor_error_count := c }).1
      ({ s2 with sensor_error_count := 0 }, false)
    else ({ s with sensor_error_count := c }, false)
  else if env.data_ready = false then (s, false)
  else
    let temp := if env.attr_raises then none else env.temperature
    let hum := if env.attr_raises then none else pyOr env.humidity env.relative_humidity
    let s1 := { s with co2_ppm := env.co2, temperature_c := temp
                       humidity_percent := hum
                       thi_value := calculate_thi_efficient temp hum }
    if rejectCo2 s1.co2_ppm then (s1, false)
    else ({ s1 with successful_readings := s1.successful_readings + 1
                    sensor_error_count := 0 }, true)

/-! ## Broker operations -/

/-- Outcome of one connect_mqtt_robust attempt: success, or an exception
raised before the fresh client object was assigned (constructor), or after
it was assigned (the connect call itself). -/
inductive MqttConnectOutcome
  | success
  | failBeforeAssign
  | failAfterAssign
deriving DecidableEq

/-- connect_mqtt_robust (src/main.py lines 278-309): library gate, cleanup of
any existing session handle, then a fresh client; on success the connected
flag is set and the error counter cleared, on failure the counter is bumped
and the flag cleared. -/
def connect_mqtt_robust (o : MqttConnectOutcome) (s : Monitor) : Monitor × Bool :=
  if s.umqtt_available = false then (s, false)
  else
    let s0 := { s with mqtt_client := none }
    match o with
    | .success =>
        ({ s0 with mqtt_client := some (), mqtt_connected := true
                   mqtt_error_count := 0 }, true)
    | .failBeforeAssign =>
        ({ s0 with mqtt_error_count := s0.mqtt_error_count + 1
                   mqtt_connected := false }, false)
    | .failAfterAssign =>
        ({ s0 with mqtt_client := some ()
                   mqtt_error_count := s0.mqtt_error_count + 1
                   mqtt_connected := false }, false)

/-- publish_data_robust (src/main.py lines 424-461): guarded on both the
connected flag and the client handle; pub_ok is the oracle for whether the
publish calls raise.  On failure the error counter is bumped and the
connected flag cleared; the client handle is kept. -/
def publish_data_robust (pub_ok : Bool) (s : Monitor) : Monitor × Bool :=
  if s.mqtt_connected = false ∨ s.mqtt_client = none then (s, false)
  else if pub_ok then
    ({ s with successful_transmissions := s.successful_transmissions + 1
              mqtt_error_count := 0 }, true)
  else
    ({ s with mqtt_error_count := s.mqtt_error_count + 1
              mqtt_connected := false }, false)

/-! ## Resource guard -/

/-- The action taken by memory_management_aggressive for an observed
free-memory value.  emergencyReboot stands for the machine.reset call of the
emergency branch, which does not return in the source. -/
inductive MemAction
  | emergencyReboot
  | criticalTeardown
  | warningLog
  | noAction
deriving DecidableEq

/-- memory_management_aggressive (src/main.py lines 167-200) after the
collection passes: the three-threshold cascade.  Emergency releases the
display handle and reboots; critical drops the broker session handle and
clears the connected flag (only when a handle is present, mirroring the
guard at line 188); warning only logs. -/
def memory_management_aggressive (free_mem : ℤ) (s : Monitor) :
    Monitor × MemAction :=
  if free_mem < MEMORY_EMERGENCY_THRESHOLD then
    ({ s with display := false }, MemAction.emergencyReboot)
  else if free_mem < MEMORY_CRITICAL_THRESHOLD then
    (if s.mqtt_client.isSome then
       { s with mqtt_client := none, mqtt_connected := false }
     else s, MemAction.criticalTeardown)
  else if free_mem < MEMORY_WARNING_THRESHOLD then (s, MemAction.warningLog)
  else (s, MemAction.noAction)

/-! ## Link operations -/

/-- Observable calls made by connect_wifi_robust on the link interface and
the watchdog. -/
inductive WifiAction
  | activateOn
  | activateOff
  | connectCall
  | feed
deriving DecidableEq, BEq

/-- connect_wifi_robust (src/main.py lines 229-263).  isConnected is the
oracle for wlan.isconnected() during this call; joins gives the number of
one-second polls after which the join succeeds (none, or 30 and above, means
the 30-poll budget times out).  Returns the new state, the boolean result and
the trace of interface/watchdog calls: creating a missing wlan object
activates it once; a connected link returns immediately; otherwise the
interface is bounced (deactivate, reactivate), connect is called, and each
unsuccessful poll sleeps and feeds the watchdog. -/
def connect_wifi_robust (isConnected : Bool) (joins : Option ℕ) (s : Monitor) :
    Monitor × Bool × List WifiAction :=
  let createTrace : List WifiAction := if s.wlan = none then [.activateOn] else []
  let s0 := if s.wlan = none then { s with wlan := some () } else s
  if isConnected then (s0, true, createTrace)
  else
    let tr := createTrace ++ [.activateOff, .activateOn, .connectCall]
    match joins with
    | some k =>
        if k < 30 then
          ({ s0 with wifi_error_count := 0 }, true, tr ++ List.replicate k .feed)
        else
          ({ s0 with wifi_error_count := s0.wifi_error_count + 1 }, false,
           tr ++ List.replicate 30 .feed)
    | none =>
        ({ s0 with wifi_error_count := s0.wifi_error_count + 1 }, false,
         tr ++ List.replicate 30 .feed)

/-- check_connections_robust (src/main.py lines 484-490): reconnect the link
when the handle is missing or the link is down, then the broker when its flag
is down and the library is available.  The wifi call trace is returned so
watchdog feeds can be counted. -/
def check_connections_robust (wifiConn : Bool) (joins : Option ℕ)
    (mo : MqttConnectOutcome) (s : Monitor) : Monitor × List WifiAction :=
  let r := if s.wlan = none ∨ wifiConn = false then
      let w := connect_wifi_robust wifiConn joins s
      (w.1, w.2.2)
    else (s, ([] : List WifiAction))
  let s1 := r.1
  if s1.mqtt_connected = false ∧ s1.umqtt_available = true then
    ((connect_mqtt_robust mo s1).1, r.2)
  else (s1, r.2)

/-! ## Scheduler -/

/-- run_monitoring_cycle (src/main.py lines 520-530): the sensor read fires
when its interval has elapsed and its timestamp advances unconditionally; the
publish fires when its interval has elapsed and a co2 value exists, and its
timestamp advances only when publish_data_robust returns success. -/
def run_monitoring_cycle (now : ℤ) (env : SensorEnv) (reinit_ok pub_ok : Bool)
    (s : Monitor) : Monitor :=
  let s1 := if SENSOR_READ_INTERVAL ≤ now - s.last_sensor_read then
      { (read_sensor_robust env reinit_ok s).1 with last_sensor_read := now }
    else s
  if PUBLISH_INTERVAL ≤ now - s1.last_publish ∧ s1.co2_ppm.isSome then
    let p := publish_data_robust pub_ok s1
    if p.2 then { p.1 with last_publish := now } else p.1
  else s1

/-- run_system_maintenance (src/main.py lines 502-518): reclamation plus
resource guard on the GC interval, connectivity reconciliation on the retry
interval, status report on the hourly interval.  The status publish and the
preventive-reset check mutate none of the modelled fields and are kept as
timestamp updates only.  The emergency branch of the resource guard reboots
in the source and so never reaches the later tasks; theorems about feed
counts are unaffected because the later tasks of such a pass feed nothing
fewer than the model counts only when the link polling loop would have run. -/
def run_system_maintenance (now free_mem : ℤ) (wifiConn : Bool)
    (joins : Option ℕ) (mo : MqttConnectOutcome) (s : Monitor) :
    Monitor × List WifiAction :=
  let s1 := if GC_INTERVAL ≤ now - s.last_gc then
      { (memory_management_aggressive free_mem s).1 with last_gc := now }
    else s
  let r := if CONNECTION_RETRY_INTERVAL ≤ now - s1.last_connection_check then
      let c := check_connections_robust wifiConn joins mo s1
      ({ c.1 with last_connection_check := now }, c.2)
    else (s1, ([] : List WifiAction))
  let s2 := r.1
  let s3 := if STATUS_REPORT_INTERVAL ≤ now - s2.last_status_report then
      { s2 with last_status_report := now }
    else s2
  (s3, r.2)

/-- Number of watchdog feeds recorded in a trace. -/
def feedCount (tr : List WifiAction) : ℕ := tr.count .feed

/-- One pass of the Running loop (src/main.py lines 569-580): the single
feed_watchdog_safe call at the top of the body, the display refresh (which
feeds nothing and mutates none of the modelled fields), the monitoring cycle,
then maintenance.  Returns the new state and the total number of
feed_watchdog_safe invocations made during the pass. -/
def production_loop_pass (now free_mem : ℤ) (env : SensorEnv)
    (reinit_ok pub_ok wifiConn : Bool) (joins : Option ℕ)
    (mo : MqttConnectOutcome) (s : Monitor) : Monitor × ℕ :=
  let s1 := run_monitoring_cycle now env reinit_ok pub_ok s
  let m := run_system_maintenance now free_mem wifiConn joins mo s1
  (m.1, 1 + feedCount m.2)

/-- Timestamp seeding at the end of the Initializing sequence
(src/main.py lines 558-564): the sensor timestamp is backdated by one full
interval, the other four are set to the current time. -/
def seed_timers (now : ℤ) (s : Monitor) : Monitor :=
  { s with last_sensor_read := now - SENSOR_READ_INTERVAL
           last_publish := now, last_gc := now
           last_connection_check := now, last_status_report := now }

/-! ## Eligibility gates, exactly as compared in the source -/

/-- Gate of the sensor read task (src/main.py line 524). -/
def sensor_read_due (now : ℤ) (s : Monitor) : Prop :=
  SENSOR_READ_INTERVAL ≤ now - s.last_sensor_read

/-- Gate of the publish task (src/main.py line 528), data availability aside. -/
def publish_due (now : ℤ) (s : Monitor) : Prop :=
  PUBLISH_INTERVAL ≤ now - s.last_publish

/-- Gate of the reclamation / resource-guard task (src/main.py line 506). -/
def gc_due (now : ℤ) (s : Monitor) : Prop :=
  GC_INTERVAL ≤ now - s.last_gc

/-- Gate of the connectivity reconciliation task (src/main.py line 510). -/
def connection_check_due (now : ℤ) (s : Monitor) : Prop :=
  CONNECTION_RETRY_INTERVAL ≤ now - s.last_connection_check

/-- Gate of the status report task (src/main.py line 514). -/
def status_report_due (now : ℤ) (s : Monitor) : Prop :=
  STATUS_REPORT_INTERVAL ≤ now - s.last_status_report

/-- The broker-session invariant: whenever the connected flag is set, a
client handle is present. -/
def mqttInv (s : Monitor) : Prop :=
  s.mqtt_connected = true → s.mqtt_client.isSome

instance (s : Monitor) : Decidable (mqttInv s) := by
  unfold mqttInv; infer_instance

/-! ## Shared concrete states and environments used by witnesses and
counterexamples -/

/-- A steady-state Monitor: live handles, prior telemetry from a healthy
sample, a few accumulated sensor errors. -/
def samplePrior : Monitor := { initMonitor true true with
  wlan := some (), mqtt_client := some (), mqtt_connected := true
  display := true, scd40 := some ()
  co2_ppm := some 800, temperature_c := some 22, humidity_percent := some 55
  thi_value := some (341/5), sensor_error_count := 3 }

/-- A sensor interaction delivering an out-of-range co2 value without any
exception. -/
def outOfRangeEnv : SensorEnv :=
  { data_ready := true, co2 := some 60000, temperature := some 21
    humidity := some 50, relative_humidity := none
    raises := false, attr_raises := false }

/-- A sensor interaction in which the driver raises. -/
def raisingEnv : SensorEnv :=
  { data_ready := true, co2 := none, temperature := none, humidity := none
    relative_humidity := none, raises := true, attr_raises := false }

/-- A sensor interaction with nothing to report: data_ready is false. -/
def idleEnv : SensorEnv :=
  { data_ready := false, co2 := none, temperature := none, humidity := none
    relative_humidity := none, raises := false, attr_raises := false }

/-! ## Claim C7 -/

/-- Helper: the THI polynomial at temperature 22 and humidity 55. -/
theorem thi_poly_at_22_55 :
    (81:ℚ)/100 * 22 + 1/100 * 55 * (99/100 * 22 - 143/10) + 463/10 = 34117/500 := by
  norm_num

/-- Helper: the floor used while rounding the THI value at (22, 55). -/
theorem thi_floor_at_22_55 : Rat.floor ((34117:ℚ)/50) = 682 := by
  rw [show Rat.floor ((34117:ℚ)/50) = Int.floor ((34117:ℚ)/50) from rfl,
    Int.floor_eq_iff]
  constructor
  · norm_num
  · norm_num

/-- C7 counterexample: at temperature 22.0 and humidity 55.0 the code does
not return 68.0, contradicting the spec scenario. -/
theorem c7_counterexample_thi :
    calculate_thi_efficient (some 22) (some 55) ≠ some 68 := by
  simp only [calculate_thi_efficient, round1, roundHalfEven, thi_poly_at_22_55]
  rw [show (10:ℚ) * (34117/500) = 34117/50 by norm_num, thi_floor_at_22_55]
  rw [if_pos (by norm_num)]
  norm_num

/-- C7 amended: at temperature 22.0 and humidity 55.0, calculate_thi_efficient
returns 68.2 (the exact formula value 68.234 rounded to one decimal), not
68.0. -/
theorem c7_amended_thi :
    calculate_thi_efficient (some 22) (some 55) = some (341/5) := by
  simp only [calculate_thi_efficient, round1, roundHalfEven, thi_poly_at_22_55]
  rw [show (10:ℚ) * (34117/500) = 34117/50 by norm_num, thi_floor_at_22_55]
  rw [if_pos (by norm_num)]
  norm_num

/-! ## Claim C3 -/

/-- Helper: the emergency zone of the resource guard. -/
theorem mem_guard_emergency (s : Monitor) (m : ℤ)
    (h : m < MEMORY_EMERGENCY_THRESHOLD) :
    memory_management_aggressive m s =
      ({ s with display := false }, MemAction.emergencyReboot) := by
  unfold memory_management_aggressive
  rw [if_pos h]

/-- Helper: the critical zone of the resource guard. -/
theorem mem_guard_critical (s : Monitor) (m : ℤ)
    (h1 : MEMORY_EMERGENCY_THRESHOLD ≤ m) (h2 : m < MEMORY_CRITICAL_THRESHOLD) :
    memory_management_aggressive m s =
      (if s.mqtt_client.isSome then
         { s with mqtt_client := none, mqtt_connected := false }
       else s, MemAction.criticalTeardown) := by
  unfold memory_management_aggressive
  rw [if_neg (not_lt.mpr h1), if_pos h2]

/-- Helper: the warning zone of the resource guard. -/
theorem mem_guard_warning (s : Monitor) (m : ℤ)
    (h1 : MEMORY_CRITICAL_THRESHOLD ≤ m) (h2 : m < MEMORY_WARNING_THRESHOLD) :
    memory_management_aggressive m s = (s, MemAction.warningLog) := by
  unfold memory_management_aggressive
  have h0 : MEMORY_EMERGENCY_THRESHOLD ≤ m := le_trans (by norm_num [MEMORY_EMERGENCY_THRESHOLD, MEMORY_CRITICAL_THRESHOLD]) h1
  rw [if_neg (not_lt.mpr h0), if_neg (not_lt.mpr h1), if_pos h2]

/-- Helper: the no-action zone of the resource guard. -/
theorem mem_guard_none (s : Monitor) (m : ℤ)
    (h1 : MEMORY_WARNING_THRESHOLD ≤ m) :
    memory_management_aggressive m s = (s, MemAction.noAction) := by
  unfold memory_management_aggressive
  have hc : MEMORY_CRITICAL_THRESHOLD ≤ m := le_trans (by norm_num [MEMORY_CRITICAL_THRESHOLD, MEMORY_WARNING_THRESHOLD]) h1
  have he : MEMORY_EMERGENCY_THRESHOLD ≤ m := le_trans (by norm_num [MEMORY_EMERGENCY_THRESHOLD, MEMORY_CRITICAL_THRESHOLD]) hc
  rw [if_neg (not_lt.mpr he), if_neg (not_lt.mpr hc), if_neg (not_lt.mpr h1)]

/-- Claim C3: at every observed free-memory value the resource guard takes
exactly the action of the zone the value falls in — below 8000 the display
is released and the reboot path is taken; in [8000, 12000) the broker session
handle is dropped and the session marked disconnected, with no reboot; in
[12000, 20000) only a warning is logged and the state is untouched; at 20000
and above nothing happens. -/
theorem c3_memory_zones (s : Monitor) (m : ℤ) (hc : s.mqtt_client.isSome) :
    (m < 8000 →
      memory_management_aggressive m s =
        ({ s with display := false }, MemAction.emergencyReboot))
  ∧ (8000 ≤ m → m < 12000 →
      memory_management_aggressive m s =
        ({ s with mqtt_client := none, mqtt_connected := false },
         MemAction.criticalTeardown))
  ∧ (12000 ≤ m → m < 20000 →
      memory_management_aggressive m s = (s, MemAction.warningLog))
  ∧ (20000 ≤ m →
      memory_management_aggressive m s = (s, MemAction.noAction)) := by
  refine ⟨fun h => mem_guard_emergency s m h,
    fun h1 h2 => ?_,
    fun h1 h2 => mem_guard_warning s m h1 h2,
    fun h1 => mem_guard_none s m h1⟩
  rw [mem_guard_critical s m h1 h2, if_pos hc]

/-- Witness for C3 at the four boundary values named by the spec, evaluated
on the steady state samplePrior. -/
theorem c3_memory_zones_witness :
    memory_management_aggressive 7999 samplePrior =
      ({ samplePrior with display := false }, MemAction.emergencyReboot)
  ∧ memory_management_aggressive 11999 samplePrior =
      ({ samplePrior with mqtt_client := none, mqtt_connected := false },
       MemAction.criticalTeardown)
  ∧ memory_management_aggressive 19999 samplePrior =
      (samplePrior, MemAction.warningLog)
  ∧ memory_management_aggressive 20001 samplePrior =
      (samplePrior, MemAction.noAction) :=
  ⟨(c3_memory_zones samplePrior 7999 rfl).1 (by norm_num),
   (c3_memory_zones samplePrior 11999 rfl).2.1 (by norm_num) (by norm_num),
   (c3_memory_zones samplePrior 19999 rfl).2.2.1 (by norm_num) (by norm_num),
   (c3_memory_zones samplePrior 20001 rfl).2.2.2 (by norm_num)⟩

/-! ## Claim C4 -/

/-- C4: evaluation of the timestamp seeding at the end of the Initializing
sequence.  At the first Running pass (which happens within the same clock
second as the seeding) only the sensor read gate is open: seed_timers
backdates last_sensor_read by one full interval, but sets last_publish,
last_gc, last_connection_check and last_status_report to the current time, so
the publish, reclamation, reconciliation and status tasks are not eligible on
the very first iteration, contradicting the claim and the source comment at
line 558. -/
theorem c4_seed_timers_eval (now : ℤ) (s : Monitor) :
    sensor_read_due now (seed_timers now s)
  ∧ ¬ publish_due now (seed_timers now s)
  ∧ ¬ gc_due now (seed_timers now s)
  ∧ ¬ connection_check_due now (seed_timers now s)
  ∧ ¬ status_report_due now (seed_timers now s) := by
  unfold sensor_read_due publish_due gc_due connection_check_due
    status_report_due seed_timers SENSOR_READ_INTERVAL PUBLISH_INTERVAL
    GC_INTERVAL CONNECTION_RETRY_INTERVAL STATUS_REPORT_INTERVAL
  refine ⟨?_, ?_, ?_, ?_, ?_⟩ <;> simp

/-! ## Claim C1 -/

/-- C1 counterexample: a sample whose co2 value 60000 lies outside
[0, 50000] is delivered to a state holding a prior Reading.  The call returns
failure, but the stored co2 value has been overwritten with the out-of-range
sample and the sensor failure counter is unchanged — both halves of the claim
fail. -/
theorem c1_counterexample :
    (read_sensor_robust outOfRangeEnv true samplePrior).2 = false
  ∧ (read_sensor_robust outOfRangeEnv true samplePrior).1.co2_ppm
      ≠ samplePrior.co2_ppm
  ∧ (read_sensor_robust outOfRangeEnv true samplePrior).1.sensor_error_count
      = samplePrior.sensor_error_count := by
  refine ⟨rfl, ?_, rfl⟩
  intro h
  have : (60000 : ℚ) = 800 := Option.some.inj h
  norm_num at this

/-- C1 amended: when the sensor delivers a co2 value outside [0, 50000]
without raising, read_sensor_robust returns failure, but before the range
check runs it has already overwritten the whole stored Reading (co2, with the
out-of-range value, temperature, humidity and the recomputed comfort index),
and it leaves the sensor failure counter untouched rather than incrementing
it. -/
theorem c1_amended_rejected_sample (s : Monitor) (env : SensorEnv)
    (ro : Bool) (c : ℚ)
    (hs : s.scd40.isSome) (hr : env.raises = false)
    (ha : env.attr_raises = false) (hd : env.data_ready = true)
    (hc : env.co2 = some c) (hout : c < 0 ∨ 50000 < c) :
    read_sensor_robust env ro s =
      ({ s with co2_ppm := some c
                temperature_c := env.temperature
                humidity_percent := pyOr env.humidity env.relative_humidity
                thi_value := calculate_thi_efficient env.temperature
                  (pyOr env.humidity env.relative_humidity) }, false) := by
  have hs' : ¬ s.scd40 = none := by
    intro h; rw [h] at hs; simp at hs
  have hrej : rejectCo2 (some c) = true := by
    unfold rejectCo2
    rcases hout with h | h
    · simp [h]
    · simp [h]
  unfold read_sensor_robust
  rw [if_neg hs', hr, hd]
  simp [ha, hc, hrej]

/-- Witness for C1 amended, instantiated on samplePrior and the out-of-range
sample delivered by outOfRangeEnv. -/
theorem c1_amended_witness :
    read_sensor_robust outOfRangeEnv true samplePrior =
      ({ samplePrior with
           co2_ppm := some 60000
           temperature_c := outOfRangeEnv.temperature
           humidity_percent := pyOr outOfRangeEnv.humidity outOfRangeEnv.relative_humidity
           thi_value := calculate_thi_efficient outOfRangeEnv.temperature
             (pyOr outOfRangeEnv.humidity outOfRangeEnv.relative_humidity) }, false) :=
  c1_amended_rejected_sample samplePrior outOfRangeEnv true 60000 rfl rfl rfl
    rfl rfl (Or.inr (by norm_num))

/-! ## Claim C2 -/

/-- Iterated failed broker connection attempts, as produced by the periodic
reconciliation under a persistent broker outage (each pass of
check_connections_robust with the broker down calls connect_mqtt_robust,
whose failure path increments mqtt_error_count). -/
def brokerOutage : ℕ → Monitor → Monitor
  | 0, s => s
  | n+1, s => brokerOutage n (connect_mqtt_robust MqttConnectOutcome.failBeforeAssign s).1

/-- C2 counterexample: eleven consecutive failed broker connections drive
mqtt_error_count to 11, strictly above its configured threshold
MAX_MQTT_FAILURES = 10, and no reinitialization or reset ever fires — the
source never compares mqtt_error_count against MAX_MQTT_FAILURES.  The
claimed invariant therefore fails for the broker subsystem. -/
theorem c2_counterexample_broker_counter :
    MAX_MQTT_FAILURES <
      (brokerOutage 11 (initMonitor true true)).mqtt_error_count := by
  decide

/-- Helper: init_sensor_robust always records exactly one reinitialization. -/
theorem init_sensor_robust_reinits (ok : Bool) (s : Monitor) :
    (init_sensor_robust ok s).1.sensor_reinits = s.sensor_reinits + 1 := by
  unfold init_sensor_robust
  by_cases h1 : s.scd4x_available = false <;> by_cases h2 : ok = true <;>
    simp [h1, h2]

/-- C2 amended: the claimed threshold invariant holds for the sensor
subsystem only.  A raising read increments the sensor counter; when the
incremented counter reaches MAX_SENSOR_FAILURES = 15, exactly one sensor
reinitialization is triggered and the counter resets to zero within the same
call, so the counter never exceeds 15.  The broker counter has no threshold
check (see the counterexample) and the generic system error counter is never
incremented at all. -/
theorem c2_amended_sensor_threshold (s : Monitor) (env : SensorEnv) (ro : Bool)
    (hs : s.scd40.isSome) (hr : env.raises = true) :
    (s.sensor_error_count + 1 < MAX_SENSOR_FAILURES →
       (read_sensor_robust env ro s).1.sensor_error_count = s.sensor_error_count + 1
       ∧ (read_sensor_robust env ro s).1.sensor_reinits = s.sensor_reinits)
  ∧ (MAX_SENSOR_FAILURES ≤ s.sensor_error_count + 1 →
       (read_sensor_robust env ro s).1.sensor_error_count = 0
       ∧ (read_sensor_robust env ro s).1.sensor_reinits = s.sensor_reinits + 1)
  ∧ (s.sensor_error_count < MAX_SENSOR_FAILURES →
       (read_sensor_robust env ro s).1.sensor_error_count < MAX_SENSOR_FAILURES) := by
  have hs' : ¬ s.scd40 = none := by
    intro h; rw [h] at hs; simp at hs
  refine ⟨fun hlt => ?_, fun hge => ?_, fun hpre => ?_⟩
  · unfold read_sensor_robust
    rw [if_neg hs', hr]
    simp only [if_true]
    rw [if_neg (not_le.mpr hlt)]
    exact ⟨rfl, rfl⟩
  · unfold read_sensor_robust
    rw [if_neg hs', hr]
    simp only [if_true]
    rw [if_pos hge]
    exact ⟨rfl, init_sensor_robust_reinits ro { s with sensor_error_count := s.sensor_error_count + 1 }⟩
  · by_cases h15 : MAX_SENSOR_FAILURES ≤ s.sensor_error_count + 1
    · unfold read_sensor_robust
      rw [if_neg hs', hr]
      simp only [if_true]
      rw [if_pos h15]
      show (0:ℕ) < MAX_SENSOR_FAILURES
      norm_num [MAX_SENSOR_FAILURES]
    · unfold read_sensor_robust
      rw [if_neg hs', hr]
      simp only [if_true]
      rw [if_neg h15]
      show s.sensor_error_count + 1 < MAX_SENSOR_FAILURES
      exact not_le.mp h15

/-- Sensor state one failure short of the threshold. -/
def sample14 : Monitor := { samplePrior with sensor_error_count := 14 }

/-- Witness for C2 amended: a fourth consecutive failure on samplePrior
increments the counter without a reinitialization; the fifteenth consecutive
failure on sample14 triggers exactly one reinitialization and resets the
counter to zero, which is below the threshold. -/
theorem c2_amended_witness :
    ((read_sensor_robust raisingEnv true samplePrior).1.sensor_error_count
        = samplePrior.sensor_error_count + 1
      ∧ (read_sensor_robust raisingEnv true samplePrior).1.sensor_reinits
        = samplePrior.sensor_reinits)
  ∧ ((read_sensor_robust raisingEnv true sample14).1.sensor_error_count = 0
      ∧ (read_sensor_robust raisingEnv true sample14).1.sensor_reinits
        = sample14.sensor_reinits + 1)
  ∧ (read_sensor_robust raisingEnv true sample14).1.sensor_error_count
      < MAX_SENSOR_FAILURES :=
  ⟨(c2_amended_sensor_threshold samplePrior raisingEnv true rfl rfl).1 (by decide),
   (c2_amended_sensor_threshold sample14 raisingEnv true rfl rfl).2.1 (by decide),
   (c2_amended_sensor_threshold sample14 raisingEnv true rfl rfl).2.2 (by decide)⟩

/-! ## Claim C9 -/

/-- Helper: the comfort index is absent whenever humidity is absent. -/
theorem thi_none_right (t : Option ℚ) : calculate_thi_efficient t none = none := by
  unfold calculate_thi_efficient
  cases t <;> rfl

/-- C9: a driver humidity attribute holding exactly 0 is falsy, so the
Python or-expression falls through to relative_humidity; when that alternate
attribute is absent the stored humidity becomes None, and consequently no
comfort index is computed for the sample even though a temperature is
available. -/
theorem c9_falsy_humidity (s : Monitor) (env : SensorEnv) (ro : Bool)
    (b : Option ℚ)
    (hs : s.scd40.isSome) (hr : env.raises = false)
    (ha : env.attr_raises = false) (hd : env.data_ready = true)
    (hh : env.humidity = some 0) :
    pyOr env.humidity b = b
  ∧ (env.relative_humidity = none →
      (read_sensor_robust env ro s).1.humidity_percent = none
      ∧ (read_sensor_robust env ro s).1.thi_value = none) := by
  have hfall : ∀ y : Option ℚ, pyOr env.humidity y = y := by
    intro y; rw [hh]; unfold pyOr; simp
  refine ⟨hfall b, fun hrel => ?_⟩
  have hs' : ¬ s.scd40 = none := by
    intro h; rw [h] at hs; simp at hs
  have hy : pyOr env.humidity env.relative_humidity = none := by
    rw [hfall, hrel]
  unfold read_sensor_robust
  rw [if_neg hs', hr, hd]
  simp only [Bool.false_eq_true, if_false, Bool.true_eq_false, ha, hy]
  rw [thi_none_right]
  by_cases hrej : rejectCo2 env.co2 = true
  · simp [hrej]
  · simp [hrej]

/-- A sample whose humidity attribute is exactly 0 and whose driver exposes
no relative_humidity attribute. -/
def zeroHumidityEnv : SensorEnv :=
  { data_ready := true, co2 := some 700, temperature := some 20
    humidity := some 0, relative_humidity := none
    raises := false, attr_raises := false }

/-- Witness for C9 on samplePrior and zeroHumidityEnv. -/
theorem c9_witness :
    pyOr zeroHumidityEnv.humidity (some 33) = some 33
  ∧ ((read_sensor_robust zeroHumidityEnv true samplePrior).1.humidity_percent = none
     ∧ (read_sensor_robust zeroHumidityEnv true samplePrior).1.thi_value = none) :=
  ⟨(c9_falsy_humidity samplePrior zeroHumidityEnv true (some 33)
      rfl rfl rfl rfl rfl).1,
   (c9_falsy_humidity samplePrior zeroHumidityEnv true (some 33)
      rfl rfl rfl rfl rfl).2 rfl⟩

/-! ## Claim C8 -/

/-- C8: calling connect_wifi_robust while the link is already connected
returns success immediately: the trace contains no deactivation, no connect
request and no watchdog-fed polling, and when a wlan object already exists
the state is returned unchanged (when it does not, the only action is the
initial activation that creates it, which is not an interface reset). -/
theorem c8_ensure_link_idempotent (s : Monitor) (joins : Option ℕ) :
    (connect_wifi_robust true joins s).2.1 = true
  ∧ WifiAction.activateOff ∉ (connect_wifi_robust true joins s).2.2
  ∧ WifiAction.connectCall ∉ (connect_wifi_robust true joins s).2.2
  ∧ WifiAction.feed ∉ (connect_wifi_robust true joins s).2.2
  ∧ (s.wlan.isSome → (connect_wifi_robust true joins s).1 = s) := by
  by_cases h : s.wlan = none
  · unfold connect_wifi_robust
    simp [h]
  · unfold connect_wifi_robust
    simp [h]

/-- Witness for C8: on samplePrior, whose link object exists and is
connected, the call succeeds, bounces nothing and leaves the state as is. -/
theorem c8_witness :
    (connect_wifi_robust true none samplePrior).2.1 = true
  ∧ WifiAction.activateOff ∉ (connect_wifi_robust true none samplePrior).2.2
  ∧ (connect_wifi_robust true none samplePrior).1 = samplePrior :=
  ⟨(c8_ensure_link_idempotent samplePrior none).1,
   (c8_ensure_link_idempotent samplePrior none).2.1,
   (c8_ensure_link_idempotent samplePrior none).2.2.2.2 rfl⟩

/-! ## Claim C10 -/

/-- Helper: connect_mqtt_robust preserves the broker-session invariant. -/
theorem mqttInv_connect_mqtt (s : Monitor) (o : MqttConnectOutcome)
    (h : mqttInv s) : mqttInv (connect_mqtt_robust o s).1 := by
  unfold connect_mqtt_robust
  by_cases hu : s.umqtt_available = false
  · rw [if_pos hu]; exact h
  · rw [if_neg hu]
    cases o <;> intro hc <;> first | rfl | simp at hc

/-- Helper: publish_data_robust preserves the broker-session invariant. -/
theorem mqttInv_publish (p : Bool) (s : Monitor)
    (h : mqttInv s) : mqttInv (publish_data_robust p s).1 := by
  unfold publish_data_robust
  by_cases hg : s.mqtt_connected = false ∨ s.mqtt_client = none
  · rw [if_pos hg]; exact h
  · rw [if_neg hg]
    by_cases hp : p = true
    · rw [if_pos hp]
      intro _
      exact Option.ne_none_iff_isSome.mp (not_or.mp hg).2
    · rw [if_neg hp]
      intro hc
      simp at hc

/-- Helper: the resource guard preserves the broker-session invariant. -/
theorem mqttInv_mem_guard (m : ℤ) (s : Monitor)
    (h : mqttInv s) : mqttInv (memory_management_aggressive m s).1 := by
  unfold memory_management_aggressive
  by_cases h1 : m < MEMORY_EMERGENCY_THRESHOLD
  · rw [if_pos h1]; exact h
  · rw [if_neg h1]
    by_cases h2 : m < MEMORY_CRITICAL_THRESHOLD
    · rw [if_pos h2]
      by_cases hc : s.mqtt_client.isSome
      · rw [if_pos hc]
        intro hcon
        simp at hcon
      · rw [if_neg hc]; exact h
    · rw [if_neg h2]
      by_cases h3 : m < MEMORY_WARNING_THRESHOLD
      · rw [if_pos h3]; exact h
      · rw [if_neg h3]; exact h

/-- Helper: read_sensor_robust never touches the broker fields. -/
theorem read_sensor_mqtt_fields (env : SensorEnv) (ro : Bool) (s : Monitor) :
    (read_sensor_robust env ro s).1.mqtt_connected = s.mqtt_connected
  ∧ (read_sensor_robust env ro s).1.mqtt_client = s.mqtt_client := by
  unfold read_sensor_robust init_sensor_robust
  dsimp only
  repeat' split
  all_goals exact ⟨rfl, rfl⟩

/-- Helper: read_sensor_robust preserves the broker-session invariant. -/
theorem mqttInv_read_sensor (env : SensorEnv) (ro : Bool) (s : Monitor)
    (h : mqttInv s) : mqttInv (read_sensor_robust env ro s).1 := by
  intro hc
  rw [(read_sensor_mqtt_fields env ro s).1] at hc
  rw [(read_sensor_mqtt_fields env ro s).2]
  exact h hc

/-- Helper: connect_wifi_robust never touches the broker fields. -/
theorem connect_wifi_mqtt_fields (ic : Bool) (j : Option ℕ) (s : Monitor) :
    (connect_wifi_robust ic j s).1.mqtt_connected = s.mqtt_connected
  ∧ (connect_wifi_robust ic j s).1.mqtt_client = s.mqtt_client := by
  unfold connect_wifi_robust
  dsimp only
  repeat' split
  all_goals exact ⟨rfl, rfl⟩

/-- Helper: connect_wifi_robust preserves the broker-session invariant. -/
theorem mqttInv_connect_wifi (ic : Bool) (j : Option ℕ) (s : Monitor)
    (h : mqttInv s) : mqttInv (connect_wifi_robust ic j s).1 := by
  intro hc
  rw [(connect_wifi_mqtt_fields ic j s).1] at hc
  rw [(connect_wifi_mqtt_fields ic j s).2]
  exact h hc

/-- Helper: check_connections_robust preserves the broker-session invariant. -/
theorem mqttInv_check_connections (w : Bool) (j : Option ℕ)
    (mo : MqttConnectOutcome) (s : Monitor)
    (h : mqttInv s) : mqttInv (check_connections_robust w j mo s).1 := by
  unfold check_connections_robust
  dsimp only
  split
  · split
    · exact mqttInv_connect_mqtt _ _ (mqttInv_connect_wifi _ _ _ h)
    · exact mqttInv_connect_wifi _ _ _ h
  · split
    · exact mqttInv_connect_mqtt _ _ h
    · exact h

/-- Helper: run_monitoring_cycle preserves the broker-session invariant. -/
theorem mqttInv_cycle (now : ℤ) (env : SensorEnv) (ro p : Bool) (s : Monitor)
    (h : mqttInv s) : mqttInv (run_monitoring_cycle now env ro p s) := by
  unfold run_monitoring_cycle
  dsimp only
  split
  · split
    · split
      · exact mqttInv_publish _ _ (mqttInv_read_sensor _ _ _ h)
      · exact mqttInv_publish _ _ (mqttInv_read_sensor _ _ _ h)
    · exact mqttInv_read_sensor _ _ _ h
  · split
    · split
      · exact mqttInv_publish _ _ h
      · exact mqttInv_publish _ _ h
    · exact h

/-- Helper: run_system_maintenance preserves the broker-session invariant. -/
theorem mqttInv_maintenance (now fm : ℤ) (w : Bool) (j : Option ℕ)
    (mo : MqttConnectOutcome) (s : Monitor)
    (h : mqttInv s) : mqttInv (run_system_maintenance now fm w j mo s).1 := by
  unfold run_system_maintenance
  dsimp only
  split
  · split
    · split
      · exact mqttInv_check_connections _ _ _ _ (mqttInv_mem_guard _ _ h)
      · exact mqttInv_check_connections _ _ _ _ (mqttInv_mem_guard _ _ h)
    · split
      · exact mqttInv_mem_guard _ _ h
      · exact mqttInv_mem_guard _ _ h
  · split
    · split
      · exact mqttInv_check_connections _ _ _ _ h
      · exact mqttInv_check_connections _ _ _ _ h
    · split
      · exact h
      · exact h

/-- C10: the invariant that a set connected flag implies a live client
handle holds initially and is preserved by every modelled operation: the
connect path sets the flag only together with a fresh client, the publish
failure path clears only the flag, the critical-memory teardown clears the
handle and the flag together, and the sensor, link, cycle and maintenance
paths never break it.  The publish guard therefore never dereferences an
absent client. -/
theorem c10_mqtt_invariant :
    (∀ u sc : Bool, mqttInv (initMonitor u sc))
  ∧ (∀ (s : Monitor) (o : MqttConnectOutcome),
      mqttInv s → mqttInv (connect_mqtt_robust o s).1)
  ∧ (∀ (s : Monitor) (p : Bool),
      mqttInv s → mqttInv (publish_data_robust p s).1)
  ∧ (∀ (s : Monitor) (m : ℤ),
      mqttInv s → mqttInv (memory_management_aggressive m s).1)
  ∧ (∀ (s : Monitor) (env : SensorEnv) (ro : Bool),
      mqttInv s → mqttInv (read_sensor_robust env ro s).1)
  ∧ (∀ (s : Monitor) (now : ℤ) (env : SensorEnv) (ro p : Bool),
      mqttInv s → mqttInv (run_monitoring_cycle now env ro p s))
  ∧ (∀ (s : Monitor) (now fm : ℤ) (w : Bool) (j : Option ℕ)
      (mo : MqttConnectOutcome),
      mqttInv s → mqttInv (run_system_maintenance now fm w j mo s).1) :=
  ⟨fun _ _ => by intro hc; simp [initMonitor] at hc,
   fun s o h => mqttInv_connect_mqtt s o h,
   fun s p h => mqttInv_publish p s h,
   fun s m h => mqttInv_mem_guard m s h,
   fun s env ro h => mqttInv_read_sensor env ro s h,
   fun s now env ro p h => mqttInv_cycle now env ro p s h,
   fun s now fm w j mo h => mqttInv_maintenance now fm w j mo s h⟩

/-- Witness for C10 on concrete states: the initial state, a successful
connect from the initial state, a failed publish from samplePrior and a
critical-memory teardown of samplePrior. -/
theorem c10_witness :
    mqttInv (initMonitor true true)
  ∧ mqttInv (connect_mqtt_robust MqttConnectOutcome.success (initMonitor true true)).1
  ∧ mqttInv (publish_data_robust false samplePrior).1
  ∧ mqttInv (memory_management_aggressive 11999 samplePrior).1 :=
  ⟨c10_mqtt_invariant.1 true true,
   c10_mqtt_invariant.2.1 (initMonitor true true) MqttConnectOutcome.success
     (c10_mqtt_invariant.1 true true),
   c10_mqtt_invariant.2.2.1 samplePrior false (by decide),
   c10_mqtt_invariant.2.2.2.1 samplePrior 11999 (by decide)⟩

/-! ## Claim C5 -/

/-- Helper: publish_data_robust only mutates broker bookkeeping, never the
timestamps, the telemetry or the capability flags. -/
theorem publish_data_frame (p : Bool) (s : Monitor) :
    (publish_data_robust p s).1.last_publish = s.last_publish
  ∧ (publish_data_robust p s).1.last_sensor_read = s.last_sensor_read
  ∧ (publish_data_robust p s).1.co2_ppm = s.co2_ppm
  ∧ (publish_data_robust p s).1.umqtt_available = s.umqtt_available := by
  unfold publish_data_robust
  repeat' split
  all_goals exact ⟨rfl, rfl, rfl, rfl⟩

/-- Helper: connect_mqtt_robust only mutates broker bookkeeping. -/
theorem connect_mqtt_frame (o : MqttConnectOutcome) (s : Monitor) :
    (connect_mqtt_robust o s).1.last_publish = s.last_publish
  ∧ (connect_mqtt_robust o s).1.last_sensor_read = s.last_sensor_read
  ∧ (connect_mqtt_robust o s).1.co2_ppm = s.co2_ppm := by
  unfold connect_mqtt_robust
  split
  · exact ⟨rfl, rfl, rfl⟩
  · cases o <;> exact ⟨rfl, rfl, rfl⟩

/-- Helper: a publish attempt whose publish calls fail reports failure. -/
theorem publish_fail_result (s : Monitor) :
    (publish_data_robust false s).2 = false := by
  unfold publish_data_robust
  split
  · rfl
  · rfl

/-- Helper: a publish attempt in a connected state with a live client and
succeeding publish calls reports success. -/
theorem publish_success_result (s : Monitor) (hc : s.mqtt_connected = true)
    (hcl : s.mqtt_client = some ()) :
    (publish_data_robust true s).2 = true := by
  unfold publish_data_robust
  rw [if_neg]
  · rfl
  · rintro (h1 | h2)
    · rw [hc] at h1; exact absurd h1 (by simp)
    · rw [hcl] at h2; exact Option.some_ne_none () h2

/-- Helper: the fields of a freshly connected broker session. -/
theorem connect_mqtt_success_fields (s : Monitor) (hu : s.umqtt_available = true) :
    (connect_mqtt_robust MqttConnectOutcome.success s).1.mqtt_connected = true
  ∧ (connect_mqtt_robust MqttConnectOutcome.success s).1.mqtt_client = some () := by
  unfold connect_mqtt_robust
  rw [if_neg (by rw [hu]; simp)]
  exact ⟨rfl, rfl⟩

/-- Helper: when the sensor gate is closed and the publish gate is open,
run_monitoring_cycle is exactly the publish attempt, with the timestamp
advanced only on a reported success. -/
theorem cycle_publish_only (now : ℤ) (env : SensorEnv) (ro p : Bool)
    (s : Monitor)
    (hns : ¬ SENSOR_READ_INTERVAL ≤ now - s.last_sensor_read)
    (hp : PUBLISH_INTERVAL ≤ now - s.last_publish)
    (hco2 : s.co2_ppm.isSome = true) :
    run_monitoring_cycle now env ro p s =
      (if (publish_data_robust p s).2 = true then
        { (publish_data_robust p s).1 with last_publish := now }
      else (publish_data_robust p s).1) := by
  unfold run_monitoring_cycle
  rw [if_neg hns]
  rw [if_pos ⟨hp, hco2⟩]

/-- C5: in the Running loop the publish timestamp advances exactly on
success.  Concretely: a failed publish attempt at time t leaves last_publish
untouched, so the publish gate is open again at t + 1 (one pass later) rather
than after a full interval; after the maintenance step restores the broker
session, the retried publish on the immediately following pass succeeds and
advances last_publish to t + 1. -/
theorem c5_publish_retry (s : Monitor) (t : ℤ) (env env2 : SensorEnv)
    (ro ro2 : Bool)
    (hns : ¬ SENSOR_READ_INTERVAL ≤ t - s.last_sensor_read)
    (hns2 : ¬ SENSOR_READ_INTERVAL ≤ (t + 1) - s.last_sensor_read)
    (hp : PUBLISH_INTERVAL ≤ t - s.last_publish)
    (hco2 : s.co2_ppm.isSome = true)
    (hu : s.umqtt_available = true) :
    (run_monitoring_cycle t env ro false s).last_publish = s.last_publish
  ∧ PUBLISH_INTERVAL ≤ (t + 1) -
      (connect_mqtt_robust MqttConnectOutcome.success
        (run_monitoring_cycle t env ro false s)).1.last_publish
  ∧ (run_monitoring_cycle (t + 1) env2 ro2 true
      (connect_mqtt_robust MqttConnectOutcome.success
        (run_monitoring_cycle t env ro false s)).1).last_publish = t + 1 := by
  have hA : run_monitoring_cycle t env ro false s = (publish_data_robust false s).1 := by
    rw [cycle_publish_only t env ro false s hns hp hco2, publish_fail_result]
    simp
  have hA1 : (run_monitoring_cycle t env ro false s).last_publish = s.last_publish := by
    rw [hA]; exact (publish_data_frame false s).1
  have hA2 : (run_monitoring_cycle t env ro false s).last_sensor_read = s.last_sensor_read := by
    rw [hA]; exact (publish_data_frame false s).2.1
  have hA3 : (run_monitoring_cycle t env ro false s).co2_ppm = s.co2_ppm := by
    rw [hA]; exact (publish_data_frame false s).2.2.1
  have hA4 : (run_monitoring_cycle t env ro false s).umqtt_available = s.umqtt_available := by
    rw [hA]; exact (publish_data_frame false s).2.2.2
  set A := run_monitoring_cycle t env ro false s with hAdef
  set B := (connect_mqtt_robust MqttConnectOutcome.success A).1 with hBdef
  have hB1 : B.last_publish = s.last_publish := by
    rw [hBdef, (connect_mqtt_frame MqttConnectOutcome.success A).1, hA1]
  have hB2 : B.last_sensor_read = s.last_sensor_read := by
    rw [hBdef, (connect_mqtt_frame MqttConnectOutcome.success A).2.1, hA2]
  have hB3 : B.co2_ppm = s.co2_ppm := by
    rw [hBdef, (connect_mqtt_frame MqttConnectOutcome.success A).2.2, hA3]
  have hBu : A.umqtt_available = true := by rw [hA4]; exact hu
  have hBc : B.mqtt_connected = true := (connect_mqtt_success_fields A hBu).1
  have hBcl : B.mqtt_client = some () := (connect_mqtt_success_fields A hBu).2
  have hgate2 : PUBLISH_INTERVAL ≤ (t + 1) - B.last_publish := by
    rw [hB1]; omega
  refine ⟨hA1, hgate2, ?_⟩
  have hns2B : ¬ SENSOR_READ_INTERVAL ≤ (t + 1) - B.last_sensor_read := by
    rw [hB2]; exact hns2
  have hco2B : B.co2_ppm.isSome = true := by rw [hB3]; exact hco2
  rw [cycle_publish_only (t + 1) env2 ro2 true B hns2B hgate2 hco2B]
  rw [if_pos (publish_success_result B hBc hBcl)]

/-- A state ready for the C5 scenario: the sensor was just read at t = 100,
the last successful publish happened at 70, so the publish gate opens at
t = 100. -/
def retryState : Monitor :=
  { samplePrior with last_sensor_read := 100, last_publish := 70 }

/-- Witness for C5 on retryState at t = 100: the failed attempt leaves the
timestamp at 70, the gate is open again one second later, and the successful
retry on the very next pass advances the timestamp to 101. -/
theorem c5_publish_retry_witness :
    (run_monitoring_cycle 100 idleEnv true false retryState).last_publish
      = retryState.last_publish
  ∧ PUBLISH_INTERVAL ≤ (100 + 1) -
      (connect_mqtt_robust MqttConnectOutcome.success
        (run_monitoring_cycle 100 idleEnv true false retryState)).1.last_publish
  ∧ (run_monitoring_cycle (100 + 1) idleEnv true true
      (connect_mqtt_robust MqttConnectOutcome.success
        (run_monitoring_cycle 100 idleEnv true false retryState)).1).last_publish
      = 100 + 1 :=
  c5_publish_retry retryState 100 idleEnv idleEnv true true
    (by decide) (by decide) (by decide) rfl rfl

/-! ## Claim C6 -/

/-- Helper: read_sensor_robust never touches the reconciliation timestamp. -/
theorem read_sensor_conn_check (env : SensorEnv) (ro : Bool) (s : Monitor) :
    (read_sensor_robust env ro s).1.last_connection_check
      = s.last_connection_check := by
  unfold read_sensor_robust init_sensor_robust
  dsimp only
  repeat' split
  all_goals rfl

/-- Helper: publish_data_robust never touches the reconciliation timestamp. -/
theorem publish_conn_check (p : Bool) (s : Monitor) :
    (publish_data_robust p s).1.last_connection_check
      = s.last_connection_check := by
  unfold publish_data_robust
  repeat' split
  all_goals rfl

/-- Helper: the monitoring cycle never touches the reconciliation timestamp. -/
theorem cycle_conn_check (now : ℤ) (env : SensorEnv) (ro p : Bool)
    (s : Monitor) :
    (run_monitoring_cycle now env ro p s).last_connection_check
      = s.last_connection_check := by
  unfold run_monitoring_cycle
  dsimp only
  repeat' split
  all_goals simp [publish_conn_check, read_sensor_conn_check]

/-- Helper: the resource guard never touches the reconciliation timestamp. -/
theorem mem_guard_conn_check (m : ℤ) (s : Monitor) :
    (memory_management_aggressive m s).1.last_connection_check
      = s.last_connection_check := by
  unfold memory_management_aggressive
  repeat' split
  all_goals rfl

/-- Helper: a reconciliation run while the link reports connected makes no
watchdog-fed polls. -/
theorem wifi_trace_no_feed_connected (j : Option ℕ) (s : Monitor) :
    feedCount (connect_wifi_robust true j s).2.2 = 0 := by
  unfold feedCount connect_wifi_robust
  by_cases h : s.wlan = none <;> simp [h, List.count]
  all_goals decide

/-- Helper: check_connections_robust feeds nothing when the link reports
connected during the call. -/
theorem check_connections_no_feed_connected (j : Option ℕ)
    (mo : MqttConnectOutcome) (s : Monitor) :
    feedCount (check_connections_robust true j mo s).2 = 0 := by
  unfold check_connections_robust
  dsimp only
  split
  · split
    · exact wifi_trace_no_feed_connected j s
    · exact wifi_trace_no_feed_connected j s
  · split
    · rfl
    · rfl

/-- Helper: maintenance feeds nothing when the link reports connected. -/
theorem maintenance_no_feed_connected (now fm : ℤ) (j : Option ℕ)
    (mo : MqttConnectOutcome) (s : Monitor) :
    feedCount (run_system_maintenance now fm true j mo s).2 = 0 := by
  unfold run_system_maintenance
  dsimp only
  repeat' split
  all_goals first
    | rfl
    | exact check_connections_no_feed_connected j mo _

/-- Helper: maintenance feeds nothing when the reconciliation task is not
due. -/
theorem maintenance_no_feed_not_due (now fm : ℤ) (w : Bool) (j : Option ℕ)
    (mo : MqttConnectOutcome) (s : Monitor)
    (h : ¬ CONNECTION_RETRY_INTERVAL ≤ now - s.last_connection_check) :
    feedCount (run_system_maintenance now fm w j mo s).2 = 0 := by
  unfold run_system_maintenance
  dsimp only
  by_cases hgc : GC_INTERVAL ≤ now - s.last_gc
  · rw [if_pos hgc, if_neg (by rw [mem_guard_conn_check]; exact h)]
    rfl
  · rw [if_neg hgc, if_neg h]
    rfl

/-- C6 amended: the watchdog is fed at least once on every pass of the
Running loop (the feed at the top of the body), and exactly once on every
pass that does not enter the WiFi join polling loop — in particular on every
pass where the link reports connected, and on every pass where the
connectivity reconciliation is not yet due.  Extra feeds occur only inside
the join polling loop, one per unsuccessful poll. -/
theorem c6_amended_feed_bounds (now fm : ℤ) (env : SensorEnv) (ro p w : Bool)
    (joins : Option ℕ) (mo : MqttConnectOutcome) (s : Monitor) :
    1 ≤ (production_loop_pass now fm env ro p w joins mo s).2
  ∧ (w = true → (production_loop_pass now fm env ro p w joins mo s).2 = 1)
  ∧ (¬ CONNECTION_RETRY_INTERVAL ≤ now - s.last_connection_check →
      (production_loop_pass now fm env ro p w joins mo s).2 = 1) := by
  unfold production_loop_pass
  dsimp only
  refine ⟨Nat.le_add_right 1 _, fun hw => ?_, fun hnd => ?_⟩
  · subst hw
    rw [maintenance_no_feed_connected]
  · rw [maintenance_no_feed_not_due _ _ _ _ _ _
      (by rw [cycle_conn_check]; exact hnd)]

/-- The C6 counterexample state: a live link object, reconciliation due. -/
def c6State : Monitor := { initMonitor false true with wlan := some () }

/-- C6 counterexample: a Running pass at t = 300 whose reconciliation finds
the link down and joins after five one-second polls feeds the watchdog six
times (once at the top of the pass, once per unsuccessful poll), refuting
the claim that the feed happens exactly once per pass regardless of branch
outcome. -/
theorem c6_counterexample_poll_feeds :
    (production_loop_pass 300 50000 idleEnv true true false (some 5)
      MqttConnectOutcome.success c6State).2 = 6
  ∧ (6 : ℕ) ≠ 1 := by
  refine ⟨by decide, by decide⟩

/-- Witness for C6 amended at a pass with a connected link and at a pass
whose reconciliation is not due. -/
theorem c6_amended_witness :
    1 ≤ (production_loop_pass 300 50000 idleEnv true true false (some 5)
      MqttConnectOutcome.success c6State).2
  ∧ (production_loop_pass 300 50000 idleEnv true true true (some 5)
      MqttConnectOutcome.success c6State).2 = 1
  ∧ (production_loop_pass 100 50000 idleEnv true true false (some 5)
      MqttConnectOutcome.success c6State).2 = 1 :=
  ⟨(c6_amended_feed_bounds 300 50000 idleEnv true true false (some 5)
      MqttConnectOutcome.success c6State).1,
   (c6_amended_feed_bounds 300 50000 idleEnv true true true (some 5)
      MqttConnectOutcome.success c6State).2.1 rfl,
   (c6_amended_feed_bounds 100 50000 idleEnv true true false (some 5)
      MqttConnectOutcome.success c6State).2.2 (by decide)⟩
